import Mathlib

/-!
Verification development for the `squad_goals` ReAct-style agent loop
(`src/squad_goals/agent.py`).  The Python source is shallowly embedded:
pure string manipulation (regex search, `str.strip`, `str.format`,
`json.loads`, control-character removal) becomes executable Lean functions
on `String`/`List Char`; the stateful `Agent.run` loop becomes explicit
state passing with an explicit fuel equal to the remaining loop budget;
raised Python exceptions become values of an error type.
-/

set_option maxRecDepth 100000

namespace SquadGoals

/-- The character `[` (written via `Char.ofNat` to keep string scanning simple). -/
def lbracketCh : Char := Char.ofNat 91

/-- The character `]`. -/
def rbracketCh : Char := Char.ofNat 93

/-- The character `{`. -/
def lbraceCh : Char := Char.ofNat 123

/-- The character `}`. -/
def rbraceCh : Char := Char.ofNat 125

/-- The character `"`. -/
def quoteCh : Char := Char.ofNat 34

/-- Python `str.isspace` / regex `\s` on the characters that occur here:
space, `\t`, `\n`, `\v`, `\f`, `\r` (9–13), the separator controls 28–31,
NEL (133) and NBSP (160). -/
def pyIsSpace (c : Char) : Bool :=
  let n := c.toNat
  (9 ≤ n && n ≤ 13) || n == 32 || (28 ≤ n && n ≤ 31) || n == 133 || n == 160

/-- Drop trailing characters satisfying `p`. -/
def dropTrailing (p : Char → Bool) (l : List Char) : List Char :=
  (l.reverse.dropWhile p).reverse

/-- Python `str.strip()` (no argument): remove surrounding whitespace. -/
def pyStrip (s : String) : String :=
  ⟨dropTrailing pyIsSpace (s.data.dropWhile pyIsSpace)⟩

/-- Python `str.strip(c)` for a one-character argument: remove every leading
and trailing occurrence of `c`. -/
def pyStripChar (c : Char) (s : String) : String :=
  ⟨dropTrailing (· == c) (s.data.dropWhile (· == c))⟩

/-- `re.sub(r'[\x00-\x1F\x7F]', '', s)`: remove ASCII control characters
(agent.py line 112). -/
def stripCtrl (s : String) : String :=
  ⟨s.data.filter (fun c => !(c.toNat ≤ 31 || c.toNat == 127))⟩

/-! ### The action regex (agent.py `Agent._parse`)

The source searches `generated` with the pattern
`Action: [\[]?(.*?)[\]]?[\n]*Action Input:[\s]*(.*)` under `re.DOTALL`.
We embed the regex engine's behaviour on exactly this pattern:
leftmost match position, a lazy first group, greedy `[\[]?`/`[\]]?`/`[\n]*`
with backtracking, and a greedy second group running to the end of input. -/

/-- The literal `"Action: "` that anchors the pattern. -/
def actionLit : List Char := "Action: ".data

/-- The literal `"Action Input:"`. -/
def actionInputLit : List Char := "Action Input:".data

/-- Match `[\n]*Action Input:` at the head of `s`; on success return the rest
of the input after the literal.  `[\n]*` is greedy, and since the literal
starts with `A`, the only viable repetition count consumes the whole run of
newlines. -/
def nlActionInput (s : List Char) : Option (List Char) :=
  let s1 := s.dropWhile (· == '\n')
  if actionInputLit.isPrefixOf s1 then some (s1.drop actionInputLit.length) else none

/-- Match `[\]]?[\n]*Action Input:` at the head of `s`, preferring to consume
a `]` (greedy `?`) and backtracking to the empty alternative. -/
def bracketNlActionInput (s : List Char) : Option (List Char) :=
  match s with
  | c :: r =>
    if c == rbracketCh then
      match nlActionInput r with
      | some g => some g
      | none => nlActionInput (c :: r)
    else nlActionInput (c :: r)
  | [] => nlActionInput []

/-- Expand the lazy group `(.*?)` one character at a time (shortest first),
at each stop trying `[\]]?[\n]*Action Input:`; on success return the group-1
characters and the input remaining after the literal. -/
def lazyGroupScan : List Char → Option (List Char × List Char)
  | [] => none
  | c :: r =>
    match bracketNlActionInput (c :: r) with
    | some g2 => some ([], g2)
    | none => (lazyGroupScan r).map (fun p => (c :: p.1, p.2))

/-- Match the part of the pattern after the `"Action: "` anchor:
`[\[]?` (greedy, with backtracking) then the lazy group and the rest. -/
def afterActionAnchor (s : List Char) : Option (List Char × List Char) :=
  match s with
  | c :: r =>
    if c == lbracketCh then
      match lazyGroupScan r with
      | some g => some g
      | none => lazyGroupScan (c :: r)
    else lazyGroupScan (c :: r)
  | [] => lazyGroupScan []

/-- Try the whole pattern at the head of `s`. -/
def matchActionAt (s : List Char) : Option (List Char × List Char) :=
  if actionLit.isPrefixOf s then afterActionAnchor (s.drop actionLit.length) else none

/-- `re.search`: try the pattern at every position, leftmost match wins. -/
def findActionMatch : List Char → Option (List Char × List Char)
  | [] => none
  | c :: r =>
    match matchActionAt (c :: r) with
    | some g => some g
    | none => findActionMatch r

/-- `re.search(regex, generated, re.DOTALL)` restricted to the two capture
groups: group 1 is the lazy capture, group 2 is everything after
`Action Input:[\s]*` (greedy `[\s]*` followed by greedy `(.*)` under DOTALL
deterministically splits at the end of the whitespace run). -/
def regexSearchAction (generated : String) : Option (String × String) :=
  (findActionMatch generated.data).map
    (fun p => (⟨p.1⟩, ⟨p.2.dropWhile pyIsSpace⟩))

/-- The value `Agent._parse` returns when the regex matches
(agent.py line 178: `match.group(1).strip()`, line 179:
`match.group(2)` then `.strip(' ').strip(chr(34))`). -/
def parsedAction (generated : String) : Option (String × String) :=
  (regexSearchAction generated).map
    (fun p => (pyStrip p.1, pyStripChar quoteCh (pyStripChar ' ' p.2)))

/-! ### `json.loads` (strict decoding, as used at agent.py line 115)

Python values produced by `json.loads` are embedded as `PyVal`; numeric
lexemes are kept verbatim (the loop never inspects numbers).  Dictionaries
keep first-insertion key order with later duplicate keys overwriting the
value, as Python dicts do. -/

/-- A Python value as produced by `json.loads`. -/
inductive PyVal where
  | str : String → PyVal
  | num : String → PyVal
  | bool : Bool → PyVal
  | null : PyVal
  | arr : List PyVal → PyVal
  | obj : List (String × PyVal) → PyVal

/-- JSON whitespace (the only whitespace `json.loads` skips). -/
def jskipWs (s : List Char) : List Char :=
  s.dropWhile (fun c => c == ' ' || c == '\t' || c == '\n' || c == '\r')

/-- Hexadecimal digit value. -/
def hexDigitVal (c : Char) : Option Nat :=
  if '0' ≤ c ∧ c ≤ '9' then some (c.toNat - 48)
  else if 'a' ≤ c ∧ c ≤ 'f' then some (c.toNat - 87)
  else if 'A' ≤ c ∧ c ≤ 'F' then some (c.toNat - 55)
  else none

/-- One-character JSON string escapes. -/
def escCharVal (e : Char) : Option Char :=
  if e == quoteCh then some quoteCh
  else if e == '\\' then some '\\'
  else if e == '/' then some '/'
  else if e == 'b' then some (Char.ofNat 8)
  else if e == 'f' then some (Char.ofNat 12)
  else if e == 'n' then some '\n'
  else if e == 'r' then some '\r'
  else if e == 't' then some '\t'
  else none

/-- Parse the body of a JSON string (opening quote already consumed);
return the decoded characters and the input after the closing quote.
Strict mode: raw control characters are rejected. -/
def parseJStringF : Nat → List Char → Option (List Char × List Char)
  | 0, _ => none
  | _ + 1, [] => none
  | f + 1, c :: r =>
    if c == quoteCh then some ([], r)
    else if c == '\\' then
      match r with
      | e :: r2 =>
        match escCharVal e with
        | some ch => (parseJStringF f r2).map (fun p => (ch :: p.1, p.2))
        | none =>
          if e == 'u' then
            match r2 with
            | a :: b :: c2 :: d :: r3 =>
              match hexDigitVal a, hexDigitVal b, hexDigitVal c2, hexDigitVal d with
              | some ha, some hb, some hc, some hd =>
                (parseJStringF f r3).map
                  (fun p => (Char.ofNat (((ha * 16 + hb) * 16 + hc) * 16 + hd) :: p.1, p.2))
              | _, _, _, _ => none
            | _ => none
          else none
      | [] => none
    else if c.toNat < 32 then none
    else (parseJStringF f r).map (fun p => (c :: p.1, p.2))

/-- The integer part of a JSON number: `0 | [1-9][0-9]*`. -/
def parseIntPart : List Char → Option (List Char × List Char)
  | [] => none
  | c :: r =>
    if c == '0' then some ([c], r)
    else if c.isDigit then
      let p := r.span (·.isDigit)
      some (c :: p.1, p.2)
    else none

/-- The optional fraction part `(\.[0-9]+)?`; consumes nothing if absent. -/
def parseFracPart (s : List Char) : List Char × List Char :=
  match s with
  | '.' :: r =>
    let p := r.span (·.isDigit)
    if p.1.isEmpty then ([], s) else ('.' :: p.1, p.2)
  | _ => ([], s)

/-- The optional exponent part `([eE][+-]?[0-9]+)?`; consumes nothing if absent. -/
def parseExpPart (s : List Char) : List Char × List Char :=
  match s with
  | e :: r =>
    if e == 'e' || e == 'E' then
      let body := match r with
        | c :: r2 => if c == '+' || c == '-' then some (c, r2) else some (e, r)
        | [] => none
      match body with
      | some (sign, r2) =>
        if sign == e then
          let p := r.span (·.isDigit)
          if p.1.isEmpty then ([], s) else (e :: p.1, p.2)
        else
          let p := r2.span (·.isDigit)
          if p.1.isEmpty then ([], s) else (e :: sign :: p.1, p.2)
      | none => ([], s)
    else ([], s)
  | [] => ([], s)

/-- A JSON number lexeme `-?(0|[1-9][0-9]*)(\.[0-9]+)?([eE][+-]?[0-9]+)?`. -/
def parseJNumber (s : List Char) : Option (List Char × List Char) :=
  match s with
  | c :: r =>
    let neg : List Char × List Char := if c == '-' then ([c], r) else ([], c :: r)
    match parseIntPart neg.2 with
    | some (ip, r1) =>
      let fr := parseFracPart r1
      let ex := parseExpPart fr.2
      some (neg.1 ++ ip ++ fr.1 ++ ex.1, ex.2)
    | none => none
  | [] => none

/-- Insert into a Python-dict association list: a later duplicate key
overwrites the value in place, otherwise append. -/
def dictInsert (acc : List (String × PyVal)) (k : String) (v : PyVal) :
    List (String × PyVal) :=
  if acc.any (fun p => p.1 == k) then
    acc.map (fun p => if p.1 == k then (p.1, v) else p)
  else acc ++ [(k, v)]

/-- Match a literal token and return the rest of the input. -/
def litToken (lit : String) (s : List Char) : Option (List Char) :=
  if lit.data.isPrefixOf s then some (s.drop lit.length) else none

mutual

/-- Parse one JSON value at the head of `s` (leading whitespace already
skipped by the caller), returning the value and the remaining input. -/
def parseJValue : Nat → List Char → Option (PyVal × List Char)
  | 0, _ => none
  | f + 1, s =>
    match s with
    | [] => none
    | c :: r =>
      if c == quoteCh then
        (parseJStringF (r.length + 1) r).map (fun p => (PyVal.str ⟨p.1⟩, p.2))
      else if c == lbraceCh then
        match jskipWs r with
        | c2 :: r2 => if c2 == rbraceCh then some (PyVal.obj [], r2)
                      else (parseJMembers f (c2 :: r2) []).map
                        (fun p => (PyVal.obj p.1, p.2))
        | [] => none
      else if c == lbracketCh then
        match jskipWs r with
        | c2 :: r2 => if c2 == rbracketCh then some (PyVal.arr [], r2)
                      else (parseJElems f (c2 :: r2) []).map
                        (fun p => (PyVal.arr p.1, p.2))
        | [] => none
      else
        match litToken "true" s with
        | some rest => some (PyVal.bool true, rest)
        | none =>
        match litToken "false" s with
        | some rest => some (PyVal.bool false, rest)
        | none =>
        match litToken "null" s with
        | some rest => some (PyVal.null, rest)
        | none =>
        match litToken "NaN" s with
        | some rest => some (PyVal.num "NaN", rest)
        | none =>
        match litToken "Infinity" s with
        | some rest => some (PyVal.num "Infinity", rest)
        | none =>
        match litToken "-Infinity" s with
        | some rest => some (PyVal.num "-Infinity", rest)
        | none =>
          (parseJNumber s).map (fun p => (PyVal.num ⟨p.1⟩, p.2))

/-- Parse object members from the first key onward (input starts at a
non-`}` character after the opening brace and whitespace). -/
def parseJMembers : Nat → List Char → List (String × PyVal) →
    Option (List (String × PyVal) × List Char)
  | 0, _, _ => none
  | f + 1, s, acc =>
    match s with
    | c :: r =>
      if c == quoteCh then
        match parseJStringF (r.length + 1) r with
        | some (k, r1) =>
          match jskipWs r1 with
          | c1 :: r2 =>
            if c1 == ':' then
              match parseJValue f (jskipWs r2) with
              | some (v, r3) =>
                match jskipWs r3 with
                | c2 :: r4 =>
                  if c2 == ',' then
                    parseJMembers f (jskipWs r4) (dictInsert acc ⟨k⟩ v)
                  else if c2 == rbraceCh then some (dictInsert acc ⟨k⟩ v, r4)
                  else none
                | [] => none
              | none => none
            else none
          | [] => none
        | none => none
      else none
    | [] => none

/-- Parse array elements from the first element onward. -/
def parseJElems : Nat → List Char → List PyVal → Option (List PyVal × List Char)
  | 0, _, _ => none
  | f + 1, s, acc =>
    match parseJValue f s with
    | some (v, r1) =>
      match jskipWs r1 with
      | c :: r2 =>
        if c == ',' then parseJElems f (jskipWs r2) (acc ++ [v])
        else if c == rbracketCh then some (acc ++ [v], r2)
        else none
      | [] => none
    | none => none

end

/-- `json.loads`: decode one JSON document; any non-whitespace trailing
data is an error. -/
def jsonLoads (s : String) : Option PyVal :=
  let cs := jskipWs s.data
  match parseJValue (2 * cs.length + 4) cs with
  | some (v, rest) => if (jskipWs rest).isEmpty then some v else none
  | none => none

/-! ### `str.format` (used at agent.py lines 85 and 97)

Only what the agent's templates exercise is embedded: `{{`/`}}` escapes and
plain named fields.  A lone brace or an unknown field name is an error, as
in Python (`ValueError` / `KeyError`).  Conversions (`!r`), format specs
(`:...`) and positional fields are not modelled; no string that reaches
`format` here contains them. -/

/-- An error raised by `str.format`. -/
inductive FmtErr where
  | keyError (name : String)
  | valueError (msg : String)
deriving DecidableEq

mutual

/-- Scan a format string, substituting named fields from `args`; `acc` holds
the output characters in reverse (tail recursion keeps evaluation shallow). -/
def pyFormatAux (args : List (String × String)) : List Char → List Char → Except FmtErr (List Char)
  | acc, [] => .ok acc.reverse
  | acc, c :: r =>
    if c == lbraceCh then
      match r with
      | c2 :: r2 =>
        if c2 == lbraceCh then pyFormatAux args (lbraceCh :: acc) r2
        else formatFieldAux args acc (c2 :: r2) []
      | [] => .error (.valueError "expected close brace before end of string")
    else if c == rbraceCh then
      match r with
      | c2 :: r2 =>
        if c2 == rbraceCh then pyFormatAux args (rbraceCh :: acc) r2
        else .error (.valueError "single close brace encountered in format string")
      | [] => .error (.valueError "single close brace encountered in format string")
    else pyFormatAux args (c :: acc) r

/-- Scan a replacement field's name up to the closing brace (`nameAcc` holds
the name characters in reverse) and substitute its value. -/
def formatFieldAux (args : List (String × String)) :
    List Char → List Char → List Char → Except FmtErr (List Char)
  | _, [], _ => .error (.valueError "expected close brace before end of string")
  | acc, c :: r, nameAcc =>
    if c == rbraceCh then
      match args.find? (fun p => p.1 == String.mk nameAcc.reverse) with
      | some p => pyFormatAux args (List.reverseAux p.2.data acc) r
      | none => .error (.keyError (String.mk nameAcc.reverse))
    else if c == lbraceCh then
      .error (.valueError "unexpected open brace in field name")
    else formatFieldAux args acc r (c :: nameAcc)

end

/-- `s.format(**args)` for the fragment of format strings used here. -/
def pyFormat (s : String) (args : List (String × String)) : Except FmtErr String :=
  (pyFormatAux args [] s.data).map (fun l => ⟨l⟩)

/-! ### Data model

`agent.py` imports `Task`, `LLM`, `BaseTool` and `ReturnFinalAnswerTool`
from sibling modules that are not part of the sources; they are modelled
from the spec where noted. -/

/-- Modelled from the spec: `task.py` is absent from the sources.  A Task
"carries a goal string; the loop writes the final answer and a completion
flag onto it" — output fields start unset. -/
structure Task where
  goal : String
  raw_output : Option String
  completed : Bool
deriving DecidableEq

/-- A fresh task for a goal, outputs unset. -/
def Task.mkNew (goal : String) : Task := ⟨goal, none, false⟩

/-- Modelled from the spec: `tools/base_tool.py` is absent from the sources.
"Each tool exposes: a unique `name`, a `description`, a machine-renderable
invocation-signature description (used to build prompt text), and a
synchronous `run(**namedParams) -> string` operation that may raise."
`describe_run` is the text of `_describe_run()`; `isFinalAnswerType` embeds
`isinstance(tool, ReturnFinalAnswerTool)`; `run` takes the keyword-argument
mapping and returns the result or the raised exception's message. -/
structure BaseTool where
  name : String
  description : String
  describe_run : String
  isFinalAnswerType : Bool
  run : List (String × PyVal) → Except String String

/-- Modelled from the spec: the sentinel "return final answer" tool "whose
`run` simply echoes its single input back as the final answer text".  Its
name is the literal the loop compares against (agent.py line 141) and the
prompt template's final-turn example names. -/
def ReturnFinalAnswerTool : BaseTool :=
  { name := "Return Final Answer Tool"
    description := "Returns the final answer and completes the task"
    describe_run := "run(answer: str) -> str"
    isFinalAnswerType := true
    run := fun kvs =>
      match kvs with
      | [(_, PyVal.str v)] => Except.ok v
      | _ => Except.error "unexpected arguments" }

/-- The sanitized tool input at dispatch time: either the JSON-decoded value
or, after a decode failure in non-debug mode, the control-stripped raw
string. -/
inductive ToolArgs where
  | decoded : PyVal → ToolArgs
  | rawStr : String → ToolArgs

/-- `self.tool_by_names[tool].run(**tool_input)` (agent.py line 123):
unpacking `**` requires a mapping — a decoded non-dict or a raw string
raises `TypeError` before the tool body runs. -/
def callTool (t : BaseTool) (args : ToolArgs) : Except String String :=
  match args with
  | .decoded (.obj kvs) => t.run kvs
  | .decoded _ => .error "argument after ** must be a mapping"
  | .rawStr _ => .error "argument after ** must be a mapping"

/-- An entry of `self.errors_encountered`. -/
inductive LoggedErr where
  | parseFailure (generated : String)
  | jsonDecode (input : String)
  | toolError (msg : String)
deriving DecidableEq

/-- An exception propagating out of `Agent.run`:
`ValueError(f"Unknown tool: {tool}")` (line 108), the debug-mode re-raises
of parse/JSON/tool errors (lines 171, 119, 128), the `AttributeError` from
`match.group(1)` on a failed parse in non-debug mode (line 178), and
`KeyError`/`ValueError` escaping `str.format` (lines 85, 97). -/
inductive RunExn where
  | unknownTool (tool : String)
  | parseFailureDebug (generated : String)
  | noneTypeNoGroup
  | jsonDecodeDebug (input : String)
  | toolRunDebug (msg : String)
  | formatKeyError (name : String)
  | formatValueError (msg : String)
deriving DecidableEq

/-- `Agent._parse` (agent.py 163-179).  On a regex match: group 1 stripped of
whitespace, group 2 stripped of spaces then of double quotes.  On no match
the source appends a `ValueError` to `errors_encountered` and raises it in
debug mode; in non-debug mode it assigns the synthetic corrective tool name
`TOOL ERROR. MAKE SURE TO VERBTAIM STATE A TOOL NAME FROM THE LIST: ...`,
but the `if not match` block does not return, so control falls through to
`match.group(1)` with `match = None`, which raises
`AttributeError: 'NoneType' object has no attribute 'group'` — embedded as
`RunExn.noneTypeNoGroup`. -/
def parseGen (debug : Bool) (generated : String) :
    Except RunExn (String × String) × List LoggedErr :=
  match parsedAction generated with
  | some p => (.ok p, [])
  | none =>
    (if debug then .error (.parseFailureDebug generated) else .error .noneTypeNoGroup,
     [.parseFailure generated])

/-- Sanitize-and-decode (agent.py 111-119): strip control characters, then
strict JSON decoding; on failure record the error and either re-raise
(debug) or keep the control-stripped raw string as the tool input. -/
def decodeStage (debug : Bool) (tool_input : String) :
    Except RunExn ToolArgs × List LoggedErr :=
  let ti := stripCtrl tool_input
  match jsonLoads ti with
  | some v => (.ok (.decoded v), [])
  | none =>
    (if debug then .error (.jsonDecodeDebug ti) else .ok (.rawStr ti), [.jsonDecode ti])

/-- Dispatch (agent.py 122-131): invoke the tool; if it raises, record the
error and either re-raise as `ValueError(f"Error from tool: {e}")` (debug)
or substitute the synthetic observation `"Error from tool: <message>"`. -/
def dispatchStage (debug : Bool) (t : BaseTool) (args : ToolArgs) :
    Except RunExn String × List LoggedErr :=
  match callTool t args with
  | .ok r => (.ok r, [])
  | .error m =>
    (if debug then .error (.toolRunDebug m) else .ok ("Error from tool: " ++ m),
     [.toolError m])

/-- Modelled from the spec: `llms/base_llm.py` is absent from the sources.
"generate(messages, stop) -> string: given an ordered list of role/content
message pairs and a set of stop strings, returns generated text". -/
abbrev LLM : Type := List (String × String) → List String → String

/-- agent.py line 11. -/
def OBSERVATION_TOKEN : String := "Observation:"

/-- agent.py line 12. -/
def THOUGHT_TOKEN : String := "Thought:"

/-- agent.py lines 13-46, transcribed byte-for-byte (note the trailing space
on the first line). -/
def PROMPT_TEMPLATE : String :=
  "Today is \x7btoday\x7d and you can use tools to get new information. \n"
  ++ "Respond to the user's input as best as you can using the following tools:\n"
  ++ "\n\n"
  ++ "\x7btool_description\x7d\n"
  ++ "\n"
  ++ "First Thought:\n"
  ++ "Thought: comment on what you want to do next.\n"
  ++ "Action: the action to take, exactly one element of [\x7btool_names\x7d]\n"
  ++ "Action Input: the input to the action (must be a json loadable dictionary of parameters e.g. \x7b\x7b\x7b\x7b\"param\": \"value\"\x7d\x7d\x7d\x7d)\n"
  ++ "Observation: the result of the action\n"
  ++ "Next Thought:\n"
  ++ "Thought: Now comment on what you want to do next.\n"
  ++ "Action: the next action to take, exactly one element of [\x7btool_names\x7d]\n"
  ++ "Action Input: the input to the next action (must be a json loadable dictionary of parameters e.g. \x7b\x7b\x7b\x7b\"param\": \"value\"\x7d\x7d\x7d\x7d)\n"
  ++ "Observation: the result of the next action\n"
  ++ "... (this Thought/Action/Action Input/Observation repeats until you are sure of the answer)\n"
  ++ "Next Thought:\n"
  ++ "Thought: Now comment on what you want to do next.\n"
  ++ "Action: the next action to take, exactly one element of [\x7btool_names\x7d]\n"
  ++ "Action Input: the input to the next action (must be a json loadable dictionary of parameters e.g. \x7b\x7b\x7b\x7b\"param\": \"value\"\x7d\x7d\x7d\x7d)\n"
  ++ "Observation: the result of the next action\n"
  ++ "Next Thought:\n"
  ++ "Thought: I can finally return the final answer\n"
  ++ "Action: Return Final Answer Tool\n"
  ++ "Action Input: The final answer to the task\n"
  ++ "\n"
  ++ "Begin:\n"
  ++ "\n"
  ++ "\x7bgoal\x7d\n"
  ++ "\n"
  ++ "First Thought:\n"
  ++ "\x7bprevious_responses\x7d\n"

/-- The Agent's constructor-time state (agent.py 48-67).  `verbose` only
gates `print` calls and has no effect on outcomes. -/
structure Agent where
  llm : LLM
  tools : List BaseTool
  prompt_template : String
  max_loops : Nat
  stop_pattern : List String
  verbose : Bool
  debug : Bool
  ai_responses : List String
  errors_encountered : List LoggedErr

/-- `Agent.__init__` (agent.py 48-67): when no supplied tool is a
`ReturnFinalAnswerTool` instance, one is appended at the end. -/
def Agent.init (llm : LLM) (tools : List BaseTool) (prompt_template : String)
    (max_loops : Nat) (stop_pattern : List String) (verbose : Bool) (debug : Bool) :
    Agent :=
  { llm := llm
    tools := if tools.any (·.isFinalAnswerType) then tools
             else tools ++ [ReturnFinalAnswerTool]
    prompt_template := prompt_template
    max_loops := max_loops
    stop_pattern := stop_pattern
    verbose := verbose
    debug := debug
    ai_responses := []
    errors_encountered := [] }

/-- `Agent.__init__` with the source's default arguments. -/
def Agent.initDefault (llm : LLM) (tools : List BaseTool) : Agent :=
  Agent.init llm tools PROMPT_TEMPLATE 5
    ["\n" ++ OBSERVATION_TOKEN, "\n\t" ++ OBSERVATION_TOKEN] false false

/-- `Agent.tool_description` (agent.py 69-72). -/
def Agent.tool_description (ag : Agent) : String :=
  String.intercalate "\n"
    (ag.tools.map (fun t => t.name ++ ": " ++ t.description ++ ". how to run: " ++ t.describe_run))

/-- `Agent.tool_names` (agent.py 74-76). -/
def Agent.tool_names (ag : Agent) : String :=
  String.intercalate ", " (ag.tools.map (fun t => t.name))

/-- `Agent.tool_by_names` lookup (agent.py 78-80): a dict comprehension, so
a later duplicate name overwrites an earlier one. -/
def Agent.toolByNames (ag : Agent) (n : String) : Option BaseTool :=
  ag.tools.reverse.find? (fun t => t.name == n)

/-- The outcome of `Agent.run`: the returned value (`none` for the implicit
fall-through return), the task, the agent's accumulated `ai_responses` and
`errors_encountered`, and the final value of `num_loops`. -/
structure RunOut where
  result : Except RunExn (Option String)
  task : Task
  ai_responses : List String
  errors_encountered : List LoggedErr
  num_loops : Nat

/-- One loop iteration either leaves `run` (normal return or exception) or
continues with updated working lists. -/
inductive IterOut where
  | done : RunOut → IterOut
  | next : List String → List String → List LoggedErr → IterOut

/-- The loop body after the LLM call (agent.py 99-150): parse, unknown-tool
check, sanitize/decode, dispatch, observation append, completion check. -/
def Agent.processGenerated (ag : Agent) (generated : String) (prev : List String)
    (task : Task) (resp : List String) (errs : List LoggedErr) (n : Nat) : IterOut :=
  match parseGen ag.debug generated with
  | (.error e, parseErrs) => .done ⟨.error e, task, resp, errs ++ parseErrs, n⟩
  | (.ok (tool, tool_input), parseErrs) =>
    let errs0 := errs ++ parseErrs
    match ag.toolByNames tool with
    | none => .done ⟨.error (.unknownTool tool), task, resp, errs0, n⟩
    | some t =>
      match decodeStage ag.debug tool_input with
      | (.error e, decErrs) => .done ⟨.error e, task, resp, errs0 ++ decErrs, n⟩
      | (.ok args, decErrs) =>
        match dispatchStage ag.debug t args with
        | (.error e, dspErrs) => .done ⟨.error e, task, resp, errs0 ++ decErrs ++ dspErrs, n⟩
        | (.ok tool_result, dspErrs) =>
          let generated2 :=
            generated ++ "\n" ++ OBSERVATION_TOKEN ++ " " ++ tool_result ++ "\nNext Thought:"
          let resp2 := resp ++ [pyStrip generated2]
          let prev2 := prev ++ [generated2]
          let errs2 := errs0 ++ decErrs ++ dspErrs
          if tool == "Return Final Answer Tool" then
            .done ⟨.ok (some tool_result),
                   { goal := task.goal, raw_output := some tool_result, completed := true },
                   resp2, errs2, n⟩
          else .next prev2 resp2 errs2

/-- The `while num_loops < self.max_loops` loop (agent.py 95-150), with fuel
equal to the remaining budget; exhausting the budget falls through to the
implicit `return None`.  Each iteration re-renders the prompt by filling the
`previous_responses` placeholder (line 97). -/
def Agent.runLoop (ag : Agent) (prompt : String) :
    Nat → List String → Task → List String → List LoggedErr → Nat → RunOut
  | 0, _, task, resp, errs, n => ⟨.ok none, task, resp, errs, n⟩
  | fuel + 1, prev, task, resp, errs, n =>
    match pyFormat prompt [("previous_responses", pyStrip (String.intercalate "\n" prev))] with
    | .error (.keyError k) => ⟨.error (.formatKeyError k), task, resp, errs, n + 1⟩
    | .error (.valueError m) => ⟨.error (.formatValueError m), task, resp, errs, n + 1⟩
    | .ok curr_prompt =>
      let generated := ag.llm [("user", curr_prompt)] ag.stop_pattern
      match ag.processGenerated generated prev task resp errs (n + 1) with
      | .done o => o
      | .next prev2 resp2 errs2 => ag.runLoop prompt fuel prev2 task resp2 errs2 (n + 1)

/-- The keyword arguments of the first `format` call (agent.py 85-91); the
`previous_responses` slot is refilled with its own placeholder text. -/
def Agent.initFormatArgs (ag : Agent) (task : Task) (today : String) :
    List (String × String) :=
  [("today", today), ("tool_description", ag.tool_description),
   ("tool_names", ag.tool_names), ("goal", task.goal),
   ("previous_responses", "\x7bprevious_responses\x7d")]

/-- `Agent.run` (agent.py 82-150).  `today` stands for
`datetime.date.today()`. -/
def Agent.run (ag : Agent) (task : Task) (today : String) : RunOut :=
  match pyFormat ag.prompt_template (ag.initFormatArgs task today) with
  | .error (.keyError k) =>
    ⟨.error (.formatKeyError k), task, ag.ai_responses, ag.errors_encountered, 0⟩
  | .error (.valueError m) =>
    ⟨.error (.formatValueError m), task, ag.ai_responses, ag.errors_encountered, 0⟩
  | .ok prompt =>
    ag.runLoop prompt ag.max_loops ag.ai_responses task ag.ai_responses ag.errors_encountered 0

/-! ### Concrete fixtures

Agents over small catalogues used to instantiate the theorems.  Where the
prompt template's content is irrelevant to the property, a two-field
template is passed to the constructor (the template is an `__init__`
parameter of the source) to keep evaluation small; the default
`PROMPT_TEMPLATE` is used where the claim concerns it. -/

/-- A minimal template exercising both `format` passes. -/
def TINY_TEMPLATE : String := "\x7bgoal\x7d\n\x7bprevious_responses\x7d"

/-- The source's default stop sequences. -/
def defaultStop : List String := ["\n" ++ OBSERVATION_TOKEN, "\n\t" ++ OBSERVATION_TOKEN]

/-- An ordinary tool named `T` that always succeeds. -/
def toolT : BaseTool :=
  { name := "T", description := "a test tool", describe_run := "run(a: str) -> str",
    isFinalAnswerType := false, run := fun _ => Except.ok "tok" }

/-- A tool whose `run` raises `ValueError("bad param")`. -/
def badTool : BaseTool :=
  { name := "Bad Tool", description := "always raises", describe_run := "run(x: str) -> str",
    isFinalAnswerType := false, run := fun _ => Except.error "bad param" }

/-- A tool carrying the final-answer NAME but not the final-answer TYPE. -/
def fakeNameFinalTool : BaseTool :=
  { name := "Return Final Answer Tool", description := "an impostor",
    describe_run := "run(answer: str) -> str", isFinalAnswerType := false,
    run := fun kvs =>
      match kvs with
      | [(_, PyVal.str v)] => Except.ok v
      | _ => Except.error "unexpected arguments" }

/-- A tool of the final-answer TYPE registered under another NAME. -/
def otherNameFinalTool : BaseTool :=
  { name := "Other", description := "a renamed final-answer tool",
    describe_run := "run(answer: str) -> str", isFinalAnswerType := true,
    run := fun kvs =>
      match kvs with
      | [(_, PyVal.str v)] => Except.ok v
      | _ => Except.error "unexpected arguments" }

/-- A model that always selects the final-answer tool with input `"42"`. -/
def llmFinal42 : LLM := fun _ _ =>
  "Action: Return Final Answer Tool\nAction Input: \x7b\"answer\": \"42\"\x7d"

/-- A model that always selects tool `T` with a JSON-decodable input. -/
def llmToolT : LLM := fun _ _ => "Action: T\nAction Input: \x7b\"a\": \"b\"\x7d"

/-- A model that always selects tool `T` with the non-JSON input `x`. -/
def llmToolTRawX : LLM := fun _ _ => "Action: T\nAction Input: x"

/-- A model that always selects the raising tool. -/
def llmBadTool : LLM := fun _ _ => "Action: Bad Tool\nAction Input: \x7b\"x\": \"1\"\x7d"

/-- A model naming a tool absent from the catalogue. -/
def llmUnknown : LLM := fun _ _ => "Action: Nope\nAction Input: \x7b\x7d"

/-- A model that selects `Other` (the renamed final-answer tool). -/
def llmOther : LLM := fun _ _ => "Action: Other\nAction Input: \x7b\"answer\": \"7\"\x7d"

/-- A model that selects the final-answer NAME with input `"7"`. -/
def llmFinal7 : LLM := fun _ _ =>
  "Action: Return Final Answer Tool\nAction Input: \x7b\"answer\": \"7\"\x7d"

/-- A model that emits unparsable text. -/
def llmGarbage : LLM := fun _ _ => "no action here"

/-- Default agent (default template, `max_loops = 5`, non-debug) whose model
always answers `"42"`; the constructor injects the final-answer tool. -/
def agFinal42 : Agent := Agent.initDefault llmFinal42 []

/-- Default agent whose model emits unparsable text. -/
def agGarbage : Agent := Agent.initDefault llmGarbage []

/-- Non-debug agent with tool `T` only, `max_loops = 1`. -/
def agLoopT : Agent := Agent.init llmToolT [toolT] TINY_TEMPLATE 1 defaultStop false false

/-- Debug agent whose model sends tool `T` the non-JSON input `x`. -/
def agDebugRawX : Agent := Agent.init llmToolTRawX [toolT] TINY_TEMPLATE 5 defaultStop false true

/-- Non-debug agent whose model sends tool `T` the non-JSON input `x`,
`max_loops = 1`. -/
def agRawX : Agent := Agent.init llmToolTRawX [toolT] TINY_TEMPLATE 1 defaultStop false false

/-- Non-debug agent with the raising tool, `max_loops = 2`. -/
def agBad : Agent := Agent.init llmBadTool [badTool] TINY_TEMPLATE 2 defaultStop false false

/-- Debug agent with the raising tool, `max_loops = 2`. -/
def agBadDebug : Agent := Agent.init llmBadTool [badTool] TINY_TEMPLATE 2 defaultStop false true

/-- Non-debug agent whose model names an unknown tool. -/
def agUnknown : Agent := Agent.init llmUnknown [toolT] TINY_TEMPLATE 3 defaultStop false false

/-- Debug agent whose model names an unknown tool. -/
def agUnknownDebug : Agent := Agent.init llmUnknown [toolT] TINY_TEMPLATE 3 defaultStop false true

/-- An agent state whose catalogue holds only the impostor tool (the name
without the type); built directly since `__init__` would append a real
final-answer tool that shadows the impostor in the name dictionary. -/
def agFakeName : Agent :=
  { llm := llmFinal7, tools := [fakeNameFinalTool], prompt_template := TINY_TEMPLATE,
    max_loops := 2, stop_pattern := defaultStop, verbose := false, debug := false,
    ai_responses := [], errors_encountered := [] }

/-- Agent whose catalogue's only final-answer-typed tool is named `Other`
(the constructor therefore appends nothing). -/
def agOtherName : Agent := Agent.init llmOther [otherNameFinalTool] TINY_TEMPLATE 2 defaultStop false false

/-- The C4 generated text. -/
def genSearchCats : String :=
  "Thought: x\nAction: Search\nAction Input: \x7b\"q\": \"cats\"\x7d\n"

/-- Expected history entry of the raising-tool iterations. -/
def badToolEntry : String :=
  "Action: Bad Tool\nAction Input: \x7b\"x\": \"1\"\x7d\nObservation: Error from tool: bad param\nNext Thought:"

/-- Expected history entry of the renamed-final-tool iterations. -/
def otherToolEntry : String :=
  "Action: Other\nAction Input: \x7b\"answer\": \"7\"\x7d\nObservation: 7\nNext Thought:"

/-- Expected history entry of the impostor-tool iteration. -/
def fakeNameEntry : String :=
  "Action: Return Final Answer Tool\nAction Input: \x7b\"answer\": \"7\"\x7d\nObservation: 7\nNext Thought:"

/-- Expected history entry of the `"42"` final-answer iteration. -/
def final42Entry : String :=
  "Action: Return Final Answer Tool\nAction Input: \x7b\"answer\": \"42\"\x7d\nObservation: 42\nNext Thought:"

/-- Expected history entry of the raw-input iteration. -/
def rawXEntry : String :=
  "Action: T\nAction Input: x\nObservation: Error from tool: argument after ** must be a mapping\nNext Thought:"

instance exceptDecEq {ε α : Type} [DecidableEq ε] [DecidableEq α] :
    DecidableEq (Except ε α) := fun a b =>
  match a, b with
  | .ok x, .ok y =>
    if h : x = y then .isTrue (by rw [h]) else .isFalse (by simp [h])
  | .error x, .error y =>
    if h : x = y then .isTrue (by rw [h]) else .isFalse (by simp [h])
  | .ok _, .error _ => .isFalse (by simp)
  | .error _, .ok _ => .isFalse (by simp)

/-! ## Theorems -/

/-- Helper for C3: in non-debug mode, an iteration whose generated text
parses to a known tool other than `Return Final Answer Tool` always
continues the loop, whatever the JSON decode and tool call do. -/
theorem processGenerated_next (ag : Agent) (g : String) (prev : List String)
    (task : Task) (resp : List String) (errs : List LoggedErr) (n : Nat)
    (tn ti : String) (t : BaseTool)
    (hdbg : ag.debug = false)
    (hparse : parsedAction g = some (tn, ti))
    (hlook : ag.toolByNames tn = some t)
    (hne : tn ≠ "Return Final Answer Tool") :
    ∃ prev2 resp2 errs2,
      ag.processGenerated g prev task resp errs n = .next prev2 resp2 errs2 := by
  have hbeq : (tn == "Return Final Answer Tool") = false := beq_eq_false_iff_ne.mpr hne
  unfold Agent.processGenerated
  simp only [parseGen, hparse, hlook, hdbg]
  cases hdec : jsonLoads (stripCtrl ti) with
  | some v =>
    simp only [decodeStage, hdec]
    cases hcall : callTool t (.decoded v) with
    | ok r => simp [dispatchStage, hcall, hbeq]
    | error m => simp [dispatchStage, hcall, hbeq]
  | none =>
    simp only [decodeStage, hdec]
    cases hcall : callTool t (.rawStr (stripCtrl ti)) with
    | ok r => simp [dispatchStage, hcall, hbeq]
    | error m => simp [dispatchStage, hcall, hbeq]

/-- Helper for C3: with the per-iteration format always succeeding and the
model always naming a known non-final tool, the non-debug loop runs its
whole fuel and falls through with `None`, leaving the task untouched. -/
theorem runLoop_exhausts (ag : Agent) (P : String) (task : Task)
    (hdbg : ag.debug = false)
    (hfmt2 : ∀ v, ∃ cp, pyFormat P [("previous_responses", v)] = .ok cp)
    (hllm : ∀ msgs stop, ∃ tn ti t, parsedAction (ag.llm msgs stop) = some (tn, ti) ∧
            ag.toolByNames tn = some t ∧ tn ≠ "Return Final Answer Tool") :
    ∀ fuel prev resp errs n,
      (ag.runLoop P fuel prev task resp errs n).result = .ok none ∧
      (ag.runLoop P fuel prev task resp errs n).task = task ∧
      (ag.runLoop P fuel prev task resp errs n).num_loops = n + fuel := by
  intro fuel
  induction fuel with
  | zero => intro prev resp errs n; simp [Agent.runLoop]
  | succ f ih =>
    intro prev resp errs n
    obtain ⟨cp, hcp⟩ := hfmt2 (pyStrip (String.intercalate "\n" prev))
    obtain ⟨tn, ti, t, hparse, hlook, hne⟩ := hllm [("user", cp)] ag.stop_pattern
    obtain ⟨prev2, resp2, errs2, hnext⟩ :=
      processGenerated_next ag (ag.llm [("user", cp)] ag.stop_pattern) prev task resp
        errs (n + 1) tn ti t hdbg hparse hlook hne
    unfold Agent.runLoop
    rw [hcp]
    simp only [hnext]
    have h := ih prev2 resp2 errs2 (n + 1)
    exact ⟨h.1, h.2.1, by rw [h.2.2]; omega⟩

/-- C1: on generated text with no `Action:`/`Action Input:` pair, `_parse`
records the failure in `errors_encountered` and raises the parse
`ValueError` in debug mode; but in non-debug mode, instead of returning the
synthetic corrective tool name it assigns, it falls through to
`match.group(1)` on `None` and raises `AttributeError`. -/
theorem claim1_parse_failure_fallthrough (g : String)
    (h : findActionMatch g.data = none) :
    parseGen true g = (.error (.parseFailureDebug g), [.parseFailure g]) ∧
    parseGen false g = (.error .noneTypeNoGroup, [.parseFailure g]) := by
  have hp : parsedAction g = none := by
    simp [parsedAction, regexSearchAction, h]
  constructor <;> simp [parseGen, hp]

/-- C1 witness: the unparsable text `hello`. -/
theorem claim1_witness :
    parseGen true "hello" = (.error (.parseFailureDebug "hello"), [.parseFailure "hello"]) ∧
    parseGen false "hello" = (.error .noneTypeNoGroup, [.parseFailure "hello"]) :=
  claim1_parse_failure_fallthrough "hello" (by decide)

/-- C2: whenever the parsed tool is the final-answer tool and its run
succeeds, the iteration writes the tool result onto the task, marks it
completed and returns the result immediately; in particular the default
agent whose model answers `"42"` completes with `task.raw_output = "42"`
and `run` returning `"42"` after one loop. -/
theorem claim2_final_answer_completes :
    (∀ (ag : Agent) (g ti r : String) (t : BaseTool) (kvs : List (String × PyVal))
       (prev resp : List String) (task : Task) (errs : List LoggedErr) (n : Nat),
       parsedAction g = some ("Return Final Answer Tool", ti) →
       ag.toolByNames "Return Final Answer Tool" = some t →
       jsonLoads (stripCtrl ti) = some (PyVal.obj kvs) →
       t.run kvs = Except.ok r →
       ag.processGenerated g prev task resp errs n =
         .done ⟨.ok (some r), ⟨task.goal, some r, true⟩,
                resp ++ [pyStrip (g ++ "\n" ++ OBSERVATION_TOKEN ++ " " ++ r ++ "\nNext Thought:")],
                errs, n⟩) ∧
    agFinal42.run (Task.mkNew "g") "2025-01-01" =
      ⟨.ok (some "42"), ⟨"g", some "42", true⟩, [final42Entry], [], 1⟩ := by
  constructor
  · intro ag g ti r t kvs prev resp task errs n hparse hlook hdec hrun
    simp [Agent.processGenerated, parseGen, hparse, hlook, decodeStage, hdec,
          dispatchStage, callTool, hrun]
  · rfl

/-- C2 witness: the general iteration statement at the concrete `"42"`
exchange. -/
theorem claim2_witness :
    agFinal42.processGenerated
      "Action: Return Final Answer Tool\nAction Input: \x7b\"answer\": \"42\"\x7d"
      [] (Task.mkNew "g") [] [] 1 =
      .done ⟨.ok (some "42"), ⟨"g", some "42", true⟩, [final42Entry], [], 1⟩ := by
  have h := claim2_final_answer_completes.1 agFinal42
    "Action: Return Final Answer Tool\nAction Input: \x7b\"answer\": \"42\"\x7d"
    "\x7b\"answer\": \"42\"\x7d" "42" ReturnFinalAnswerTool [("answer", PyVal.str "42")]
    [] [] (Task.mkNew "g") [] 1 (by decide) rfl rfl rfl
  simpa using h

/-- C4 counterexample: on the spec's example text the parser does NOT
return `("Search", "{\"q\": \"cats\"}")` — the raw input keeps its trailing
newline, because group 2 is only stripped of spaces and double quotes. -/
theorem claim4_counterexample :
    parsedAction genSearchCats ≠ some ("Search", "\x7b\"q\": \"cats\"\x7d") := by
  decide

/-- C4 amended: the parser returns `("Search", "{\"q\": \"cats\"}\n")`; the
tool name is stripped of surrounding whitespace (brackets are consumed by
the regex, not by trimming), while the raw input is stripped only of
surrounding space characters and of all leading/trailing double quotes, so
other whitespace such as a trailing newline or tab is retained. -/
theorem claim4_amended :
    parsedAction genSearchCats = some ("Search", "\x7b\"q\": \"cats\"\x7d\n") ∧
    parsedAction "Action: [T]\nAction Input: \"\"x\"\"" = some ("T", "x") ∧
    parsedAction "Action: T\nAction Input: x\t" = some ("T", "x\t") := by
  refine ⟨by decide, by decide, by decide⟩

/-- C7: a successfully parsed tool name absent from the catalogue raises
`ValueError(f"Unknown tool: {tool}")` before any decode or dispatch, in
debug and non-debug mode alike; the run stops with no state change. -/
theorem claim7_unknown_tool_fatal :
    (∀ (ag : Agent) (g tn ti : String) (prev resp : List String) (task : Task)
       (errs : List LoggedErr) (n : Nat),
       parsedAction g = some (tn, ti) →
       ag.toolByNames tn = none →
       ag.processGenerated g prev task resp errs n =
         .done ⟨.error (.unknownTool tn), task, resp, errs, n⟩) ∧
    agUnknown.run (Task.mkNew "g") "2025-01-01" =
      ⟨.error (.unknownTool "Nope"), Task.mkNew "g", [], [], 1⟩ ∧
    agUnknownDebug.run (Task.mkNew "g") "2025-01-01" =
      ⟨.error (.unknownTool "Nope"), Task.mkNew "g", [], [], 1⟩ := by
    refine ⟨?_, rfl, rfl⟩
    intro ag g tn ti prev resp task errs n hparse hlook
    simp [Agent.processGenerated, parseGen, hparse, hlook]

/-- C7 witness: the unknown tool name `Nope`. -/
theorem claim7_witness :
    agUnknown.processGenerated "Action: Nope\nAction Input: \x7b\x7d" [] (Task.mkNew "g")
      [] [] 1 = .done ⟨.error (.unknownTool "Nope"), Task.mkNew "g", [], [], 1⟩ :=
  claim7_unknown_tool_fatal.1 agUnknown "Action: Nope\nAction Input: \x7b\x7d" "Nope"
    "\x7b\x7d" [] [] (Task.mkNew "g") [] 1 (by decide) rfl

/-- C3 counterexample: the claim quantifies over every model that always
produces a parseable action naming a known non-final tool and asserts the
run returns `None` without raising; but the debug-mode agent whose constant
model names the known tool `T` with the non-JSON input `x` raises the
tool-input parse error on its first iteration. -/
theorem claim3_counterexample :
    parsedAction (llmToolTRawX [] []) = some ("T", "x") ∧
    agDebugRawX.toolByNames "T" = some toolT ∧
    ("T" == "Return Final Answer Tool") = false ∧
    agDebugRawX.run (Task.mkNew "g") "2025-01-01" =
      ⟨.error (.jsonDecodeDebug "x"), Task.mkNew "g", [], [.jsonDecode "x"], 1⟩ :=
  ⟨by decide, rfl, by decide, rfl⟩

/-- C3 amended: in NON-DEBUG mode, for every model that always produces a
parseable action naming a known non-final-answer tool (and a template whose
two render passes succeed), `run` executes exactly `max_loops` iterations,
returns `None`, and leaves the task untouched. -/
theorem claim3_amended_nondebug (ag : Agent) (task : Task) (today P : String)
    (hdbg : ag.debug = false)
    (hfmt1 : pyFormat ag.prompt_template (ag.initFormatArgs task today) = .ok P)
    (hfmt2 : ∀ v, ∃ cp, pyFormat P [("previous_responses", v)] = .ok cp)
    (hllm : ∀ msgs stop, ∃ tn ti t, parsedAction (ag.llm msgs stop) = some (tn, ti) ∧
            ag.toolByNames tn = some t ∧ tn ≠ "Return Final Answer Tool") :
    (ag.run task today).result = .ok none ∧
    (ag.run task today).task = task ∧
    (ag.run task today).num_loops = ag.max_loops := by
  have h := runLoop_exhausts ag P task hdbg hfmt2 hllm ag.max_loops ag.ai_responses
    ag.ai_responses ag.errors_encountered 0
  unfold Agent.run
  rw [hfmt1]
  simpa using h

/-- C3 witness: the non-debug agent with only tool `T` and `max_loops = 1`
performs exactly one iteration and returns without completing the task. -/
theorem claim3_witness :
    (agLoopT.run (Task.mkNew "g") "2025-01-01").result = .ok none ∧
    (agLoopT.run (Task.mkNew "g") "2025-01-01").task = Task.mkNew "g" ∧
    (agLoopT.run (Task.mkNew "g") "2025-01-01").num_loops = 1 :=
  claim3_amended_nondebug agLoopT (Task.mkNew "g") "2025-01-01"
    "g\n\x7bprevious_responses\x7d" rfl rfl (fun v => ⟨_, rfl⟩)
    (fun msgs stop => ⟨"T", "\x7b\"a\": \"b\"\x7d", toolT, rfl, rfl, by decide⟩)

/-- C5: tool input is first stripped of ASCII control characters and then
strictly JSON-decoded (so a valid object followed by `\x07` decodes); on
decode failure the error is logged and debug mode raises, while non-debug
mode keeps the undecoded (control-stripped) string and still attempts
dispatch with it — visible in the run whose lone history entry records the
mapping `TypeError` from dispatching the raw string `x`. -/
theorem claim5_sanitize_then_decode (ti : String)
    (h : jsonLoads (stripCtrl ti) = none) :
    decodeStage true ti =
      (.error (.jsonDecodeDebug (stripCtrl ti)), [.jsonDecode (stripCtrl ti)]) ∧
    decodeStage false ti =
      (.ok (.rawStr (stripCtrl ti)), [.jsonDecode (stripCtrl ti)]) ∧
    jsonLoads (stripCtrl ("\x7b\"q\": \"cats\"\x7d" ++ String.mk [Char.ofNat 7])) =
      some (PyVal.obj [("q", PyVal.str "cats")]) ∧
    agRawX.run (Task.mkNew "g") "2025-01-01" =
      ⟨.ok none, Task.mkNew "g", [rawXEntry],
       [.jsonDecode "x", .toolError "argument after ** must be a mapping"], 1⟩ := by
  refine ⟨?_, ?_, rfl, rfl⟩
  · simp [decodeStage, h]
  · simp [decodeStage, h]

/-- C5 witness: the undecodable input `x`. -/
theorem claim5_witness :
    decodeStage true "x" = (.error (.jsonDecodeDebug "x"), [.jsonDecode "x"]) ∧
    decodeStage false "x" = (.ok (.rawStr "x"), [.jsonDecode "x"]) ∧
    jsonLoads (stripCtrl ("\x7b\"q\": \"cats\"\x7d" ++ String.mk [Char.ofNat 7])) =
      some (PyVal.obj [("q", PyVal.str "cats")]) ∧
    agRawX.run (Task.mkNew "g") "2025-01-01" =
      ⟨.ok none, Task.mkNew "g", [rawXEntry],
       [.jsonDecode "x", .toolError "argument after ** must be a mapping"], 1⟩ :=
  claim5_sanitize_then_decode "x" rfl

/-- C6: a tool invocation raising with message `m` is logged; in non-debug
mode the observation becomes `"Error from tool: " ++ m`, is appended to
history, and the loop continues (the raising-tool agent with
`max_loops = 2` accumulates two such entries and falls through), while in
debug mode the same condition aborts the run with a raised error. -/
theorem claim6_tool_error_observation (t : BaseTool) (args : ToolArgs) (m : String)
    (h : callTool t args = .error m) :
    dispatchStage false t args = (.ok ("Error from tool: " ++ m), [.toolError m]) ∧
    dispatchStage true t args = (.error (.toolRunDebug m), [.toolError m]) ∧
    agBad.run (Task.mkNew "g") "2025-01-01" =
      ⟨.ok none, Task.mkNew "g", [badToolEntry, badToolEntry],
       [.toolError "bad param", .toolError "bad param"], 2⟩ ∧
    agBadDebug.run (Task.mkNew "g") "2025-01-01" =
      ⟨.error (.toolRunDebug "bad param"), Task.mkNew "g", [], [.toolError "bad param"], 1⟩ := by
  refine ⟨?_, ?_, rfl, rfl⟩
  · simp [dispatchStage, h]
  · simp [dispatchStage, h]

/-- C6 witness: the raising tool with message `bad param`. -/
theorem claim6_witness :
    dispatchStage false badTool (.decoded (.obj [("x", PyVal.str "1")])) =
      (.ok "Error from tool: bad param", [.toolError "bad param"]) ∧
    dispatchStage true badTool (.decoded (.obj [("x", PyVal.str "1")])) =
      (.error (.toolRunDebug "bad param"), [.toolError "bad param"]) ∧
    agBad.run (Task.mkNew "g") "2025-01-01" =
      ⟨.ok none, Task.mkNew "g", [badToolEntry, badToolEntry],
       [.toolError "bad param", .toolError "bad param"], 2⟩ ∧
    agBadDebug.run (Task.mkNew "g") "2025-01-01" =
      ⟨.error (.toolRunDebug "bad param"), Task.mkNew "g", [], [.toolError "bad param"], 1⟩ :=
  claim6_tool_error_observation badTool (.decoded (.obj [("x", PyVal.str "1")])) "bad param" rfl

/-- C8: a constructor tool list with no final-answer tool gets exactly one
appended at the end; a list that already has one is left unchanged. -/
theorem claim8_final_tool_injected (llm : LLM) (tools : List BaseTool)
    (pt : String) (ml : Nat) (sp : List String) (vb dbg : Bool) :
    (tools.any (fun t => t.isFinalAnswerType) = false →
      (Agent.init llm tools pt ml sp vb dbg).tools = tools ++ [ReturnFinalAnswerTool] ∧
      ((Agent.init llm tools pt ml sp vb dbg).tools.countP
        (fun t => t.isFinalAnswerType)) = 1) ∧
    (tools.any (fun t => t.isFinalAnswerType) = true →
      (Agent.init llm tools pt ml sp vb dbg).tools = tools) := by
  constructor
  · intro h
    have hz : tools.countP (fun t => t.isFinalAnswerType) = 0 := by
      rw [List.countP_eq_zero]
      intro a ha
      have := List.any_eq_false.mp h a ha
      simpa using this
    constructor
    · simp [Agent.init, h]
    · simp [Agent.init, h, List.countP_append, hz, List.countP_cons, ReturnFinalAnswerTool]
  · intro h
    simp [Agent.init, h]

/-- C8 witness: the empty list gains exactly the final-answer tool; a list
already holding a final-answer-typed tool is unchanged. -/
theorem claim8_witness :
    (Agent.init llmFinal42 [] PROMPT_TEMPLATE 5 defaultStop false false).tools =
      [ReturnFinalAnswerTool] ∧
    ((Agent.init llmFinal42 [] PROMPT_TEMPLATE 5 defaultStop false false).tools.countP
      (fun t => t.isFinalAnswerType)) = 1 ∧
    (Agent.init llmOther [otherNameFinalTool] TINY_TEMPLATE 2 defaultStop false false).tools =
      [otherNameFinalTool] := by
  have h1 := (claim8_final_tool_injected llmFinal42 [] PROMPT_TEMPLATE 5
    defaultStop false false).1 rfl
  have h2 := (claim8_final_tool_injected llmOther [otherNameFinalTool] TINY_TEMPLATE 2
    defaultStop false false).2 rfl
  exact ⟨by simpa using h1.1, h1.2, h2⟩

/-- C9: the final-answer branch fires exactly on the literal parsed name
`Return Final Answer Tool`: a catalogue tool carrying that name completes
the task even when it is not of the final-answer type, while a
final-answer-typed tool under another name only continues the loop — its
agent exhausts the budget without ever completing. -/
theorem claim9_completion_is_by_name :
    (∀ (ag : Agent) (g ti r : String) (t : BaseTool) (kvs : List (String × PyVal))
       (prev resp : List String) (task : Task) (errs : List LoggedErr) (n : Nat),
       parsedAction g = some ("Return Final Answer Tool", ti) →
       ag.toolByNames "Return Final Answer Tool" = some t →
       t.isFinalAnswerType = false →
       jsonLoads (stripCtrl ti) = some (PyVal.obj kvs) →
       t.run kvs = Except.ok r →
       ag.processGenerated g prev task resp errs n =
         .done ⟨.ok (some r), ⟨task.goal, some r, true⟩,
                resp ++ [pyStrip (g ++ "\n" ++ OBSERVATION_TOKEN ++ " " ++ r ++ "\nNext Thought:")],
                errs, n⟩) ∧
    (∀ (ag : Agent) (g tn ti r : String) (t : BaseTool) (kvs : List (String × PyVal))
       (prev resp : List String) (task : Task) (errs : List LoggedErr) (n : Nat),
       parsedAction g = some (tn, ti) →
       tn ≠ "Return Final Answer Tool" →
       ag.toolByNames tn = some t →
       t.isFinalAnswerType = true →
       jsonLoads (stripCtrl ti) = some (PyVal.obj kvs) →
       t.run kvs = Except.ok r →
       ag.processGenerated g prev task resp errs n =
         .next (prev ++ [g ++ "\n" ++ OBSERVATION_TOKEN ++ " " ++ r ++ "\nNext Thought:"])
               (resp ++ [pyStrip (g ++ "\n" ++ OBSERVATION_TOKEN ++ " " ++ r ++ "\nNext Thought:")])
               errs) ∧
    agFakeName.run (Task.mkNew "g") "2025-01-01" =
      ⟨.ok (some "7"), ⟨"g", some "7", true⟩, [fakeNameEntry], [], 1⟩ ∧
    agOtherName.run (Task.mkNew "g") "2025-01-01" =
      ⟨.ok none, Task.mkNew "g", [otherToolEntry, otherToolEntry], [], 2⟩ := by
  refine ⟨?_, ?_, rfl, rfl⟩
  · intro ag g ti r t kvs prev resp task errs n hparse hlook htype hdec hrun
    simp [Agent.processGenerated, parseGen, hparse, hlook, decodeStage, hdec,
          dispatchStage, callTool, hrun]
  · intro ag g tn ti r t kvs prev resp task errs n hparse hne hlook htype hdec hrun
    have hbeq : (tn == "Return Final Answer Tool") = false := beq_eq_false_iff_ne.mpr hne
    simp [Agent.processGenerated, parseGen, hparse, hlook, decodeStage, hdec,
          dispatchStage, callTool, hrun, hbeq]

/-- C9 witness: the impostor (name without type) completes; the renamed
final-answer tool (type without name) continues. -/
theorem claim9_witness :
    agFakeName.processGenerated
      "Action: Return Final Answer Tool\nAction Input: \x7b\"answer\": \"7\"\x7d"
      [] (Task.mkNew "g") [] [] 1 =
      .done ⟨.ok (some "7"), ⟨"g", some "7", true⟩, [fakeNameEntry], [], 1⟩ ∧
    agOtherName.processGenerated
      "Action: Other\nAction Input: \x7b\"answer\": \"7\"\x7d" [] (Task.mkNew "g") [] [] 1 =
      .next [otherToolEntry] [otherToolEntry] [] := by
  constructor
  · have h := claim9_completion_is_by_name.1 agFakeName
      "Action: Return Final Answer Tool\nAction Input: \x7b\"answer\": \"7\"\x7d"
      "\x7b\"answer\": \"7\"\x7d" "7" fakeNameFinalTool [("answer", PyVal.str "7")]
      [] [] (Task.mkNew "g") [] 1 (by decide) rfl rfl rfl rfl
    simpa using h
  · have h := claim9_completion_is_by_name.2.1 agOtherName
      "Action: Other\nAction Input: \x7b\"answer\": \"7\"\x7d" "Other"
      "\x7b\"answer\": \"7\"\x7d" "7" otherNameFinalTool [("answer", PyVal.str "7")]
      [] [] (Task.mkNew "g") [] 1 (by decide) (by decide) rfl rfl rfl rfl
    simpa using h

/-- C10: with the default template, a goal containing a brace (here
`before {oops} after`) makes `run` raise a formatting `KeyError` while
rendering the first iteration's prompt: the first `format` pass succeeds
(substituting the goal verbatim), and the second pass re-parses the result;
the outcome is identical for a model that would answer and one that emits
garbage, and no observation or task change occurs — the failure precedes
any language-model call or tool invocation. -/
theorem claim10_brace_goal_format_error :
    agFinal42.run (Task.mkNew "before \x7boops\x7d after") "2025-01-01" =
      ⟨.error (.formatKeyError "oops"), Task.mkNew "before \x7boops\x7d after", [], [], 1⟩ ∧
    (∃ P, pyFormat agFinal42.prompt_template
      (agFinal42.initFormatArgs (Task.mkNew "before \x7boops\x7d after") "2025-01-01") =
        .ok P) ∧
    agFinal42.run (Task.mkNew "before \x7boops\x7d after") "2025-01-01" =
      agGarbage.run (Task.mkNew "before \x7boops\x7d after") "2025-01-01" := by
  refine ⟨rfl, ⟨_, rfl⟩, rfl⟩

/-! ## Oracle checks

Concrete evaluations of the embedded functions, each checked against the
behaviour of the corresponding Python expression. -/

example : jsonLoads "\x7b\"q\": \"cats\"\x7d" = some (.obj [("q", .str "cats")]) := rfl

example : jsonLoads (stripCtrl "\x7b\"q\": \"cats\"\x7d\x07") =
    some (.obj [("q", .str "cats")]) := rfl

example : jsonLoads "x" = none := rfl

example : jsonLoads "nan" = none := rfl

example : jsonLoads "NaN" = some (.num "NaN") := rfl

example : jsonLoads "\x7b\"a\":1,\"b\":2,\"a\":3\x7d" =
    some (.obj [("a", .num "3"), ("b", .num "2")]) := rfl

example : jsonLoads "\x7b\"answer\": \"42\"\x7d" = some (.obj [("answer", .str "42")]) := rfl

example : jsonLoads "[1, 2.5e-1, true, null, \"s\"]" =
    some (.arr [.num "1", .num "2.5e-1", .bool true, .null, .str "s"]) := rfl

example : jsonLoads "42" = some (.num "42") := rfl

example : jsonLoads "The final answer" = none := rfl

example : jsonLoads "" = none := rfl

example :
    pyFormat "Today \x7btoday\x7d ex \x7b\x7b\x7b\x7b\"p\": \"v\"\x7d\x7d\x7d\x7d goal: \x7bgoal\x7d hist: \x7bprevious_responses\x7d"
      [("today", "D"), ("goal", "before \x7boops\x7d after"),
       ("previous_responses", "\x7bprevious_responses\x7d")] =
    .ok "Today D ex \x7b\x7b\"p\": \"v\"\x7d\x7d goal: before \x7boops\x7d after hist: \x7bprevious_responses\x7d" := rfl

example :
    pyFormat "Today D ex \x7b\x7b\"p\": \"v\"\x7d\x7d goal: before \x7boops\x7d after hist: \x7bprevious_responses\x7d"
      [("previous_responses", "H")] = .error (.keyError "oops") := rfl

example : pyFormat "x \x7b y" [] =
    .error (.valueError "expected close brace before end of string") := rfl

example : pyFormat "x \x7d y" [] =
    .error (.valueError "single close brace encountered in format string") := rfl

example : pyFormat "a \x7bg\x7d b" [("g", "H1\nH2")] = .ok "a H1\nH2 b" := rfl

example : parsedAction "Thought: x\nAction: Search\nAction Input: \x7b\"q\": \"cats\"\x7d\n" =
    some ("Search", "\x7b\"q\": \"cats\"\x7d\n") := by decide

example : parsedAction "Action: T\nAction Input: x" = some ("T", "x") := by decide

example : parsedAction "Action: [T]\nAction Input: \"\"x\"\"" = some ("T", "x") := by decide

example : parsedAction "Action: T\nAction Input: x\t" = some ("T", "x\t") := by decide

example : parsedAction "Action: T\n\n\nAction Input:\n  \x7b\"a\": 1\x7d" =
    some ("T", "\x7b\"a\": 1\x7d") := by decide

example : parsedAction "hello" = none := by decide

example : parsedAction "Action: [Action Input: x" = some ("", "x") := by decide

example : parsedAction "Action: ]\n]Action Input: y" = some ("]", "y") := by decide

end SquadGoals
